import Mathlib

set_option autoImplicit false

/-!
Shallow embedding of the dadsbot repository (three TypeScript/JS sources:
lib/session-recorder.ts, lib/audio-bridge.ts, scripts/create-pr.mjs).

Every call into the host platform (Web Audio, MediaRecorder, getUserMedia,
dynamic import, process.env) is modelled by a field of an explicit
platform record giving the outcome of that call; a JS exception is an
`Except.error` carrying the message string.  The mutable fields of the
`SessionRecorder` class become a state record threaded through the
operations; each operation also returns the diagnostic-log step names it
emits at its branch points (logging is a side channel per the source).
-/

/-- A binary payload together with its mime type, as in the Web Blob API.
A Blob built from a list of parts concatenates their bytes in order. -/
structure Blob where
  data : List Nat
  type : String
  deriving Repr, DecidableEq

/-- The size of a Blob, as in the Web API size accessor. -/
def Blob.size (b : Blob) : Nat := b.data.length

/-- State of a MediaRecorder handle, as in the Web MediaRecorder API. -/
inductive MediaRecorderState where
  | inactive
  | recording
  | paused
  deriving Repr, DecidableEq

/-- A MediaRecorder handle: its run state and the mime type it reports. -/
structure MediaRecorderHandle where
  state : MediaRecorderState
  mimeType : String
  deriving Repr, DecidableEq

/-- Outcomes of every platform call the recorder makes.  `Except.error e`
models the call throwing (or the promise rejecting) with message `e`. -/
structure Platform where
  hasWindow : Bool
  getUserMedia : Except String Unit
  newAudioContext : Except String Unit
  resumeContext : Except String Unit
  createDestination : Except String Unit
  createSource : Except String Unit
  connectSource : Except String Unit
  isTypeSupported : String → Except String Bool
  newRecorderWithMime : String → Except String Unit
  newRecorderDefault : Except String Unit
  defaultRecorderMime : String
  recorderStart : Except String Unit
  recorderStop : Except String Unit
  resumeForPlay : Except String Unit
  atobAvailable : Bool
  atobDecode : String → Except String (List Nat)
  decodeAudioData : List Nat → Except String Nat
  sourceStart : Except String Unit
  disconnectOk : Bool
  stopTracksOk : Bool
  closeContextOk : Bool
  nowStart : Nat
  nowStop : Nat

/-- The private mutable fields of the SessionRecorder class.  Handles that
the source stores as object-or-null become `Option Unit`; the recorder
handle keeps its observable state and mime type. -/
structure SessionRecorder where
  audioCtx : Option Unit
  destination : Option Unit
  micStream : Option Unit
  micSource : Option Unit
  recorder : Option MediaRecorderHandle
  chunks : List Blob
  mimeType : String
  startedAt : Nat
  deriving Repr, DecidableEq

/-- Field initializers of the class: all handles null, chunks empty,
mimeType "audio/webm", startedAt 0. -/
def SessionRecorder.init : SessionRecorder :=
  { audioCtx := none, destination := none, micStream := none, micSource := none
    recorder := none, chunks := [], mimeType := "audio/webm", startedAt := 0 }

/-- The result type of a completed recording, from the source export. -/
structure SessionRecordingResult where
  blob : Blob
  mimeType : String
  durationMs : Nat
  deriving Repr, DecidableEq

/-- The result type of one playback invocation. -/
structure PlaybackResult where
  durationMs : Nat
  deriving Repr, DecidableEq

/-- Outcome of one recorder operation: the post state, the diagnostic log
step names emitted, and the returned or thrown value. -/
structure OpResult (α : Type) where
  state : SessionRecorder
  logs : List String
  result : Except String α
  deriving Repr

/-- The fixed candidate list SUPPORTED_MIME_TYPES from the source. -/
def SUPPORTED_MIME_TYPES : List String :=
  ["audio/webm;codecs=opus", "audio/webm", "audio/ogg;codecs=opus", "audio/ogg"]

/-- JS || on strings: the left operand unless it is falsy (empty). -/
def jsOrString (a b : String) : String := if a = "" then b else a

/-- JS String.prototype.trim: strip leading and trailing whitespace. -/
def jsTrim (s : String) : String :=
  ⟨(((s.data.dropWhile Char.isWhitespace).reverse.dropWhile Char.isWhitespace).reverse)⟩

/-- JS String.prototype.toLowerCase (ASCII case folding). -/
def jsToLower (s : String) : String :=
  ⟨s.data.map Char.toLower⟩

namespace SessionRecorder

/-- True when the instance holds a recorder handle whose state is
"recording" (the guard of the early return in start). -/
def isRecording (s : SessionRecorder) : Bool :=
  match s.recorder with
  | some r => r.state = MediaRecorderState.recording
  | none => false

/-- The private cleanup method: best-effort disconnect, track stop and
context close (each guarded by try/catch, so a platform failure only
changes the log), then every owned handle is reset.  Note the source does
not reset mimeType here. -/
def cleanup (p : Platform) (s : SessionRecorder) : SessionRecorder × List String :=
  let l1 : List String :=
    if s.micSource.isSome && s.destination.isSome then
      if p.disconnectOk then ["cleanup:mic-disconnected"]
      else ["cleanup:mic-disconnect-failed"]
    else []
  let l2 : List String :=
    if s.micStream.isSome then
      if p.stopTracksOk then ["cleanup:tracks-stopped"]
      else ["cleanup:stop-tracks-failed"]
    else []
  let l3 : List String :=
    if s.audioCtx.isSome then
      if p.closeContextOk then ["cleanup:context-closed"]
      else ["cleanup:context-close-failed"]
    else []
  ({ s with
      audioCtx := none, destination := none, micStream := none,
      micSource := none, recorder := none, chunks := [], startedAt := 0 },
   "cleanup:begin" :: (l1 ++ l2 ++ l3))

/-- One probe of the mime candidate loop: isTypeSupported, with a thrown
probe caught and counted as unsupported. -/
def mimeProbe (p : Platform) (candidate : String) : Bool :=
  match p.isTypeSupported candidate with
  | .ok supported => supported
  | .error _ => false

/-- The catch branch of start: log, run cleanup, rethrow. -/
def startFailure (p : Platform) (s : SessionRecorder) (e : String) : OpResult Unit :=
  let (cleaned, cl) := cleanup p s
  ⟨cleaned, "start:failed" :: cl, .error e⟩

/-- The tail of the start try block, after the recorder constructor
succeeded: assign all fields (the new recorder is still inactive), set
the data handler, then call recorder.start, whose failure lands in the
catch with the fields already assigned.  `supportedMime` is the find
result and `recorderMime` the mime reported by the constructed recorder,
so the stored mime is supportedMime || recorder.mimeType || audio-webm. -/
def startWithRecorder (p : Platform) (supportedMime : Option String)
    (recorderMime : String) : OpResult Unit :=
  let mt := jsOrString (jsOrString (supportedMime.getD "") recorderMime) "audio/webm"
  let assigned : SessionRecorder :=
    { audioCtx := some (), destination := some (), micStream := some (),
      micSource := some (),
      recorder := some ⟨MediaRecorderState.inactive, recorderMime⟩,
      mimeType := mt, chunks := [], startedAt := p.nowStart }
  match p.recorderStart with
  | .error e => startFailure p assigned e
  | .ok _ =>
    ⟨{ assigned with recorder := some ⟨MediaRecorderState.recording, recorderMime⟩ },
     ["start:recording-began"], .ok ()⟩

/-- The start method.  Mirrors the source control flow: window guard,
already-recording no-op, then the try block acquiring the microphone,
audio context, graph nodes, negotiating the mime type over the candidate
list, constructing the recorder (with the chosen mime, or the platform
default when none is supported), assigning all fields, and starting the
recorder.  Any failing sub-step lands in the catch branch. -/
def start (p : Platform) (s : SessionRecorder) : OpResult Unit :=
  if p.hasWindow then
    if s.isRecording then ⟨s, ["start:already-recording"], .ok ()⟩
    else
      match p.getUserMedia with
      | .error e => startFailure p s e
      | .ok _ =>
      match p.newAudioContext with
      | .error e => startFailure p s e
      | .ok _ =>
      match p.resumeContext with
      | .error e => startFailure p s e
      | .ok _ =>
      match p.createDestination with
      | .error e => startFailure p s e
      | .ok _ =>
      match p.createSource with
      | .error e => startFailure p s e
      | .ok _ =>
      match p.connectSource with
      | .error e => startFailure p s e
      | .ok _ =>
        match SUPPORTED_MIME_TYPES.find? (fun c => mimeProbe p c) with
        | some m =>
          match p.newRecorderWithMime m with
          | .error e => startFailure p s e
          | .ok _ => startWithRecorder p (some m) m
        | none =>
          match p.newRecorderDefault with
          | .error e => startFailure p s e
          | .ok _ => startWithRecorder p none p.defaultRecorderMime
  else ⟨s, [], .error "SessionRecorder unavailable"⟩

/-- The ondataavailable handler registered by start: a chunk is appended
only when the event carries data of nonzero size. -/
def handleDataAvailable (s : SessionRecorder) (eventData : Option Blob) : SessionRecorder :=
  match eventData with
  | some b => if b.size ≠ 0 then { s with chunks := s.chunks ++ [b] } else s
  | none => s

/-- The stop method.  NotStarted when no recorder handle exists; empty
result when the handle is already inactive; otherwise request encoder
stop, and on the stop event assemble the blob from the accumulated chunks
(in order), compute the duration, run cleanup and resolve.  A throwing
encoder stop resolves an empty result after cleanup (the promise never
rejects). -/
def stop (p : Platform) (s : SessionRecorder) : OpResult SessionRecordingResult :=
  match s.recorder with
  | none => ⟨s, [], .error "Recorder not started"⟩
  | some r =>
    if r.state = MediaRecorderState.inactive then
      ⟨s, [], .ok ⟨⟨[], s.mimeType⟩, s.mimeType, 0⟩⟩
    else
      match p.recorderStop with
      | .ok _ =>
        let blob : Blob := ⟨(s.chunks.map Blob.data).flatten, s.mimeType⟩
        let durationMs := if s.startedAt = 0 then 0 else p.nowStop - s.startedAt
        let (cleaned, cl) := cleanup p s
        ⟨cleaned, "stop:requested" :: cl, .ok ⟨blob, s.mimeType, durationMs⟩⟩
      | .error _ =>
        let (cleaned, cl) := cleanup p s
        ⟨cleaned, "stop:failed" :: cl, .ok ⟨⟨[], s.mimeType⟩, s.mimeType, 0⟩⟩

/-- The cancel method: best-effort encoder stop (a throw is caught and
logged), then unconditional cleanup.  No error channel: every throwing
call in the source is inside try/catch, so cancel never raises. -/
def cancel (p : Platform) (s : SessionRecorder) : SessionRecorder × List String :=
  let stopLogs : List String :=
    match s.recorder with
    | some r =>
      if r.state ≠ MediaRecorderState.inactive then
        match p.recorderStop with
        | .ok _ => ["cancel:stop-requested"]
        | .error _ => ["cancel:stop-failed"]
      else []
    | none => []
  let (cleaned, cl) := cleanup p s
  (cleaned, stopLogs ++ cl)

/-- The private static base64ToArrayBuffer helper: fails when atob is
unavailable, otherwise decodes through the platform. -/
def base64ToArrayBuffer (p : Platform) (base64 : String) : Except String (List Nat) :=
  if p.atobAvailable then p.atobDecode base64
  else .error "Base64 decoding unavailable in this environment"

/-- The playAssistantBase64 method: NotStarted guard on the audio graph,
resume, base64 decode, audio decode, then playAudioBuffer (re-checking
the graph, starting the source; a throwing start rejects). -/
def playAssistantBase64 (p : Platform) (s : SessionRecorder) (base64 : String) :
    OpResult PlaybackResult :=
  if s.audioCtx.isNone || s.destination.isNone then
    ⟨s, ["play:missing-context"], .error "Recorder not started"⟩
  else
    match p.resumeForPlay with
    | .error e => ⟨s, [], .error e⟩
    | .ok _ =>
      match base64ToArrayBuffer p base64 with
      | .error e => ⟨s, ["play:decoding-audio"], .error e⟩
      | .ok bytes =>
        match p.decodeAudioData bytes with
        | .error e => ⟨s, ["play:decoding-audio"], .error e⟩
        | .ok durationMs =>
          if s.audioCtx.isNone || s.destination.isNone then
            ⟨s, ["play:decoding-audio", "play:decoded"], .error "Recorder not started"⟩
          else
            match p.sourceStart with
            | .ok _ =>
              ⟨s, ["play:decoding-audio", "play:decoded", "play:start-requested"],
               .ok ⟨durationMs⟩⟩
            | .error e =>
              ⟨s, ["play:decoding-audio", "play:decoded", "play:start-failed"], .error e⟩

end SessionRecorder

/-! Embedding of lib/audio-bridge.ts: a thin wrapper that dynamically
resolves a legacy helper module and forwards three entry points. -/

/-- The RecordResult shape exported by the bridge. -/
structure RecordResult where
  blob : Blob
  durationMs : Nat
  started : Bool
  stopReason : String
  deriving Repr, DecidableEq

/-- A resolved legacy audio helper module: each expected export may be
absent (the source tests typeof === function before calling). -/
structure AudioModule where
  calibrateRMS : Option (Nat → Nat)
  recordUntilSilence : Option (String → RecordResult)
  blobToBase64 : Option (Blob → String)

/-- The dynamic-import capability: a candidate specifier either resolves
to a module or fails (the source catches the import error). -/
structure BridgePlatform where
  importModule : String → Option AudioModule

namespace AudioBridge

/-- The ordered candidate specifier list from getModule. -/
def moduleCandidates : List String := ["../src/lib/audio.js", "../src/lib/audio"]

/-- The error message thrown when every candidate import fails. -/
def audioUnavailableMessage : String :=
  "Audio helpers unavailable after attempting legacy module imports. Verify build includes src/lib/audio.js."

/-- The import loop of getModule: first resolving candidate wins. -/
def tryImports (p : BridgePlatform) : List String → Except String AudioModule
  | [] => .error audioUnavailableMessage
  | c :: rest =>
    match p.importModule c with
    | some m => .ok m
    | none => tryImports p rest

/-- The getModule helper. -/
def getModule (p : BridgePlatform) : Except String AudioModule :=
  tryImports p moduleCandidates

/-- The calibrateRMS entry point: resolves the module, then calls its
calibrateRMS when present, otherwise returns 0. -/
def calibrateRMS (p : BridgePlatform) (seconds : Nat) : Except String Nat :=
  match getModule p with
  | .error e => .error e
  | .ok m =>
    match m.calibrateRMS with
    | some f => .ok (f seconds)
    | none => .ok 0

/-- The recordUntilSilence entry point: resolves the module, then fails
when its recordUntilSilence is absent, otherwise calls it. -/
def recordUntilSilence (p : BridgePlatform) (args : String) : Except String RecordResult :=
  match getModule p with
  | .error e => .error e
  | .ok m =>
    match m.recordUntilSilence with
    | some f => .ok (f args)
    | none => .error "Audio recording unavailable"

/-- The blobToBase64 entry point: resolves the module, then calls its
blobToBase64 when present, otherwise returns the empty string. -/
def blobToBase64 (p : BridgePlatform) (b : Blob) : Except String String :=
  match getModule p with
  | .error e => .error e
  | .ok m =>
    match m.blobToBase64 with
    | some f => .ok (f b)
    | none => .ok ""

end AudioBridge

/-! Embedding of scripts/create-pr.mjs: the environment-variable
validation helper requireEnv. -/

namespace CreatePr

/-- The lowercase placeholder values rejected by requireEnv. -/
def placeholderValues : List String := ["default", "changeme", "placeholder"]

/-- The requireEnv helper: undefined, empty-after-trim, and placeholder
values (compared lowercased) each throw; otherwise the trimmed value is
returned.  The environment is a partial map from names to raw values. -/
def requireEnv (env : String → Option String) (name : String) : Except String String :=
  match env name with
  | none => .error ("Missing required environment variable: " ++ name)
  | some raw =>
    let value := jsTrim raw
    if value.length = 0 then
      .error ("Environment variable " ++ name ++ " is empty")
    else
      let lowered := jsToLower value
      if placeholderValues.contains lowered then
        .error ("Environment variable " ++ name ++ " is using a placeholder value: " ++ value)
      else
        .ok value

end CreatePr

/-! Helper platform values and predicates used across the development. -/

/-- A platform on which every call the start path makes succeeds. -/
def PlatformGood (p : Platform) : Prop :=
  p.hasWindow = true ∧ p.getUserMedia = .ok () ∧ p.newAudioContext = .ok () ∧
  p.resumeContext = .ok () ∧ p.createDestination = .ok () ∧ p.createSource = .ok () ∧
  p.connectSource = .ok () ∧ (∀ m, p.newRecorderWithMime m = .ok ()) ∧
  p.newRecorderDefault = .ok () ∧ p.recorderStart = .ok ()

/-- A concrete fully working platform used to instantiate theorems. -/
def okPlatform : Platform :=
  { hasWindow := true
    getUserMedia := .ok (), newAudioContext := .ok (), resumeContext := .ok ()
    createDestination := .ok (), createSource := .ok (), connectSource := .ok ()
    isTypeSupported := fun c => .ok (c == "audio/webm;codecs=opus")
    newRecorderWithMime := fun _ => .ok (), newRecorderDefault := .ok ()
    defaultRecorderMime := "audio/webm"
    recorderStart := .ok (), recorderStop := .ok ()
    resumeForPlay := .ok (), atobAvailable := true
    atobDecode := fun _ => .ok [], decodeAudioData := fun _ => .ok 0
    sourceStart := .ok ()
    disconnectOk := true, stopTracksOk := true, closeContextOk := true
    nowStart := 1000, nowStop := 3500 }

/-- A concrete state captured mid-recording. -/
def recordingState : SessionRecorder :=
  { audioCtx := some (), destination := some (), micStream := some (), micSource := some ()
    recorder := some ⟨MediaRecorderState.recording, "audio/webm"⟩
    chunks := [], mimeType := "audio/webm", startedAt := 1000 }

/-- A state whose encoder handle is already inactive (finalized). -/
def inactiveState : SessionRecorder :=
  { recordingState with recorder := some ⟨MediaRecorderState.inactive, "audio/webm"⟩ }

/-- A platform whose device acquisition is denied. -/
def deniedPlatform : Platform :=
  { okPlatform with getUserMedia := .error "denied" }

/-- A platform supporting only the Opus-in-Ogg candidate. -/
def probeOggPlatform : Platform :=
  { okPlatform with isTypeSupported := fun c => .ok (c == "audio/ogg;codecs=opus") }

/-- A platform supporting none of the candidates, with its own default
recorder mime. -/
def noSupportPlatform : Platform :=
  { okPlatform with
      isTypeSupported := fun _ => .ok false, defaultRecorderMime := "audio/mp4" }

/-- A platform where encoder stop and track stop both throw. -/
def stopFailPlatform : Platform :=
  { okPlatform with recorderStop := .error "stop-boom", stopTracksOk := false }

/-- Every chunk accumulated in the state has nonzero size. -/
def chunksSized (s : SessionRecorder) : Prop :=
  ∀ b ∈ s.chunks, b.size ≠ 0

/-- A recording state carrying two accumulated chunks. -/
def activeChunksState : SessionRecorder :=
  { recordingState with
      chunks := [⟨[1, 2], "audio/webm"⟩, ⟨[3], "audio/webm"⟩] }

/-- A resolved module exporting none of the expected helpers. -/
def emptyAudioModule : AudioModule :=
  { calibrateRMS := none, recordUntilSilence := none, blobToBase64 := none }

/-- An import capability resolving every candidate to the empty module. -/
def stubModulePlatform : BridgePlatform :=
  { importModule := fun _ => some emptyAudioModule }

/-- An import capability where no candidate resolves. -/
def noModulePlatform : BridgePlatform :=
  { importModule := fun _ => none }

theorem okPlatform_good : PlatformGood okPlatform :=
  ⟨rfl, rfl, rfl, rfl, rfl, rfl, rfl, fun _ => rfl, rfl, rfl⟩

namespace SessionRecorder

/-- On a good platform, start always returns successfully (either the
already-recording no-op or a full successful acquisition). -/
theorem start_ok_of_good (p : Platform) (s : SessionRecorder) (hp : PlatformGood p) :
    (start p s).result = .ok () := by
  obtain ⟨h1, h2, h3, h4, h5, h6, h7, h8, h9, h10⟩ := hp
  unfold start
  rw [h1]
  by_cases hr : s.isRecording
  · simp [hr]
  · simp only [hr, Bool.false_eq_true, if_false, if_true]
    rw [h2, h3, h4, h5, h6, h7]
    cases hfind : SUPPORTED_MIME_TYPES.find? (fun c => mimeProbe p c) with
    | none => simp [hfind, h9, h10, startWithRecorder]
    | some m => simp [hfind, h8 m, h10, startWithRecorder]

/-- Under an open window, start either succeeds, or its post state has
every handle reset and the chunk list empty (the catch ran cleanup). -/
theorem start_state_cases (p : Platform) (s : SessionRecorder) (hw : p.hasWindow = true) :
    (start p s).result = .ok () ∨
    ((start p s).state.audioCtx = none ∧ (start p s).state.destination = none ∧
     (start p s).state.micStream = none ∧ (start p s).state.micSource = none ∧
     (start p s).state.recorder = none ∧ (start p s).state.chunks = [] ∧
     (start p s).state.startedAt = 0) := by
  unfold start
  rw [hw]
  by_cases hr : s.isRecording
  · simp [hr]
  · simp only [hr, Bool.false_eq_true, if_false, if_true]
    cases p.getUserMedia with
    | error e => exact Or.inr ⟨rfl, rfl, rfl, rfl, rfl, rfl, rfl⟩
    | ok u =>
    cases p.newAudioContext with
    | error e => exact Or.inr ⟨rfl, rfl, rfl, rfl, rfl, rfl, rfl⟩
    | ok u =>
    cases p.resumeContext with
    | error e => exact Or.inr ⟨rfl, rfl, rfl, rfl, rfl, rfl, rfl⟩
    | ok u =>
    cases p.createDestination with
    | error e => exact Or.inr ⟨rfl, rfl, rfl, rfl, rfl, rfl, rfl⟩
    | ok u =>
    cases p.createSource with
    | error e => exact Or.inr ⟨rfl, rfl, rfl, rfl, rfl, rfl, rfl⟩
    | ok u =>
    cases p.connectSource with
    | error e => exact Or.inr ⟨rfl, rfl, rfl, rfl, rfl, rfl, rfl⟩
    | ok u =>
    cases hfind : SUPPORTED_MIME_TYPES.find? (fun c => mimeProbe p c) with
    | none =>
      dsimp only
      cases p.newRecorderDefault with
      | error e => exact Or.inr ⟨rfl, rfl, rfl, rfl, rfl, rfl, rfl⟩
      | ok v =>
        unfold startWithRecorder
        cases p.recorderStart with
        | error e => exact Or.inr ⟨rfl, rfl, rfl, rfl, rfl, rfl, rfl⟩
        | ok w => exact Or.inl rfl
    | some m =>
      dsimp only
      cases hc : p.newRecorderWithMime m with
      | error e => exact Or.inr ⟨rfl, rfl, rfl, rfl, rfl, rfl, rfl⟩
      | ok v =>
        unfold startWithRecorder
        cases p.recorderStart with
        | error e => exact Or.inr ⟨rfl, rfl, rfl, rfl, rfl, rfl, rfl⟩
        | ok w => exact Or.inl rfl

end SessionRecorder

/-- Claim C2: on every instance with no encoder handle (start never
called, or resources already released), stop fails with the NotStarted
error rather than returning a RecordingResult, and the state is left
untouched. -/
theorem claim_stop_not_started (p : Platform) (s : SessionRecorder)
    (h : s.recorder = none) :
    SessionRecorder.stop p s = ⟨s, [], .error "Recorder not started"⟩ := by
  unfold SessionRecorder.stop
  rw [h]

theorem claim_stop_not_started_witness :
    SessionRecorder.stop okPlatform SessionRecorder.init =
      ⟨SessionRecorder.init, [], .error "Recorder not started"⟩ :=
  claim_stop_not_started okPlatform SessionRecorder.init rfl

/-- Claim C3: calling start while the instance is already recording is a
no-op: it only logs the already-recording step, returns successfully,
and leaves every field of the state unchanged (no resource acquisition
happens). -/
theorem claim_start_already_recording_noop (p : Platform) (s : SessionRecorder)
    (hw : p.hasWindow = true) (hr : s.isRecording = true) :
    SessionRecorder.start p s = ⟨s, ["start:already-recording"], .ok ()⟩ := by
  unfold SessionRecorder.start
  simp [hw, hr]

theorem claim_start_already_recording_noop_witness :
    SessionRecorder.start okPlatform recordingState =
      ⟨recordingState, ["start:already-recording"], .ok ()⟩ :=
  claim_start_already_recording_noop okPlatform recordingState rfl rfl

/-- Claim C5: stop on an instance whose encoder handle exists but is
already inactive returns, without error, an empty blob typed with the
session mime type and a duration of 0 milliseconds. -/
theorem claim_stop_inactive_empty (p : Platform) (s : SessionRecorder)
    (r : MediaRecorderHandle) (hr : s.recorder = some r)
    (hi : r.state = MediaRecorderState.inactive) :
    SessionRecorder.stop p s = ⟨s, [], .ok ⟨⟨[], s.mimeType⟩, s.mimeType, 0⟩⟩ := by
  unfold SessionRecorder.stop
  rw [hr]
  simp [hi]

theorem claim_stop_inactive_empty_witness :
    SessionRecorder.stop okPlatform inactiveState =
      ⟨inactiveState, [], .ok ⟨⟨[], "audio/webm"⟩, "audio/webm", 0⟩⟩ :=
  claim_stop_inactive_empty okPlatform inactiveState
    ⟨MediaRecorderState.inactive, "audio/webm"⟩ rfl rfl

/-- Claim C7: on every instance with no live audio graph (audio context
or destination is null), playAssistantBase64 rejects with the NotStarted
error for every payload, decoding and playing nothing (the state is left
untouched and no decode step is reached). -/
theorem claim_play_not_started (p : Platform) (s : SessionRecorder) (base64 : String)
    (h : s.audioCtx = none ∨ s.destination = none) :
    SessionRecorder.playAssistantBase64 p s base64 =
      ⟨s, ["play:missing-context"], .error "Recorder not started"⟩ := by
  unfold SessionRecorder.playAssistantBase64
  rcases h with h | h <;> simp [h]

theorem claim_play_not_started_witness :
    SessionRecorder.playAssistantBase64 okPlatform SessionRecorder.init "AAAA" =
      ⟨SessionRecorder.init, ["play:missing-context"], .error "Recorder not started"⟩ :=
  claim_play_not_started okPlatform SessionRecorder.init "AAAA" (Or.inl rfl)

namespace SessionRecorder

/-- The stop method either runs cleanup (empty chunk list) or leaves the
state untouched. -/
theorem stop_chunks_cases (p : Platform) (s : SessionRecorder) :
    (stop p s).state.chunks = [] ∨ (stop p s).state = s := by
  unfold stop
  cases s.recorder with
  | none => exact Or.inr rfl
  | some r =>
    by_cases hi : r.state = MediaRecorderState.inactive
    · simp [hi]
    · simp only [hi, if_false]
      cases p.recorderStop with
      | ok u => exact Or.inl rfl
      | error e => exact Or.inl rfl

/-- The start method either runs cleanup or a fresh acquisition (empty
chunk list either way) or leaves the state untouched. -/
theorem start_chunks_cases (p : Platform) (s : SessionRecorder) :
    (start p s).state.chunks = [] ∨ (start p s).state = s := by
  unfold start
  by_cases hw : p.hasWindow
  · simp only [hw, if_true]
    by_cases hr : s.isRecording
    · simp [hr]
    · simp only [hr, Bool.false_eq_true, if_false]
      cases p.getUserMedia with
      | error e => exact Or.inl rfl
      | ok u =>
      cases p.newAudioContext with
      | error e => exact Or.inl rfl
      | ok u =>
      cases p.resumeContext with
      | error e => exact Or.inl rfl
      | ok u =>
      cases p.createDestination with
      | error e => exact Or.inl rfl
      | ok u =>
      cases p.createSource with
      | error e => exact Or.inl rfl
      | ok u =>
      cases p.connectSource with
      | error e => exact Or.inl rfl
      | ok u =>
      cases hfind : SUPPORTED_MIME_TYPES.find? (fun c => mimeProbe p c) with
      | none =>
        dsimp only
        cases p.newRecorderDefault with
        | error e => exact Or.inl rfl
        | ok v =>
          unfold startWithRecorder
          cases p.recorderStart with
          | error e => exact Or.inl rfl
          | ok w => exact Or.inl rfl
      | some m =>
        dsimp only
        cases hc : p.newRecorderWithMime m with
        | error e => exact Or.inl rfl
        | ok v =>
          unfold startWithRecorder
          cases p.recorderStart with
          | error e => exact Or.inl rfl
          | ok w => exact Or.inl rfl
  · simp [hw]

end SessionRecorder

/-- Claim C4: when any sub-step inside the start try block fails, start
re-raises the error only after releasing everything: every handle field
of the post state is null and the chunk list is empty, and the instance
is reusable, since a subsequent start on a fully working platform
succeeds from that state. -/
theorem claim_start_failure_cleanup (p : Platform) (s : SessionRecorder) (e : String)
    (hw : p.hasWindow = true)
    (hf : (SessionRecorder.start p s).result = .error e) :
    (SessionRecorder.start p s).state.audioCtx = none ∧
    (SessionRecorder.start p s).state.destination = none ∧
    (SessionRecorder.start p s).state.micStream = none ∧
    (SessionRecorder.start p s).state.micSource = none ∧
    (SessionRecorder.start p s).state.recorder = none ∧
    (SessionRecorder.start p s).state.chunks = [] ∧
    ∀ q, PlatformGood q →
      (SessionRecorder.start q (SessionRecorder.start p s).state).result = .ok () := by
  rcases SessionRecorder.start_state_cases p s hw with hok | hcl
  · rw [hok] at hf; cases hf
  · exact ⟨hcl.1, hcl.2.1, hcl.2.2.1, hcl.2.2.2.1, hcl.2.2.2.2.1, hcl.2.2.2.2.2.1,
      fun q hq => SessionRecorder.start_ok_of_good q _ hq⟩

theorem claim_start_failure_cleanup_witness :
    (SessionRecorder.start deniedPlatform SessionRecorder.init).state.recorder = none ∧
    (SessionRecorder.start okPlatform
      (SessionRecorder.start deniedPlatform SessionRecorder.init).state).result = .ok () := by
  have h := claim_start_failure_cleanup deniedPlatform SessionRecorder.init "denied" rfl rfl
  exact ⟨h.2.2.2.2.1, h.2.2.2.2.2.2 okPlatform okPlatform_good⟩

/-- Claim C6: cancel never raises (it has no error channel: the encoder
stop and every cleanup sub-step are wrapped in try/catch in the source,
and their failures only add log entries), all resource handles are
released afterwards, and the instance can be started again successfully
on a working platform. -/
theorem claim_cancel_safe_and_reusable (p : Platform) (s : SessionRecorder) :
    (SessionRecorder.cancel p s).1.audioCtx = none ∧
    (SessionRecorder.cancel p s).1.destination = none ∧
    (SessionRecorder.cancel p s).1.micStream = none ∧
    (SessionRecorder.cancel p s).1.micSource = none ∧
    (SessionRecorder.cancel p s).1.recorder = none ∧
    (SessionRecorder.cancel p s).1.chunks = [] ∧
    (∀ q, PlatformGood q →
      (SessionRecorder.start q (SessionRecorder.cancel p s).1).result = .ok ()) ∧
    (∀ r e, s.recorder = some r → r.state ≠ MediaRecorderState.inactive →
      p.recorderStop = .error e →
      "cancel:stop-failed" ∈ (SessionRecorder.cancel p s).2) ∧
    (s.micStream.isSome = true → p.stopTracksOk = false →
      "cleanup:stop-tracks-failed" ∈ (SessionRecorder.cancel p s).2) := by
  refine ⟨rfl, rfl, rfl, rfl, rfl, rfl,
    fun q hq => SessionRecorder.start_ok_of_good q _ hq, ?_, ?_⟩
  · intro r e hr hrs hstop
    simp [SessionRecorder.cancel, hr, hrs, hstop]
  · intro hm hto
    simp [SessionRecorder.cancel, SessionRecorder.cleanup, hm, hto]

theorem claim_cancel_safe_and_reusable_witness :
    (SessionRecorder.cancel stopFailPlatform recordingState).1.recorder = none ∧
    (SessionRecorder.start okPlatform
      (SessionRecorder.cancel stopFailPlatform recordingState).1).result = .ok () ∧
    "cancel:stop-failed" ∈ (SessionRecorder.cancel stopFailPlatform recordingState).2 ∧
    "cleanup:stop-tracks-failed" ∈ (SessionRecorder.cancel stopFailPlatform recordingState).2 := by
  have h := claim_cancel_safe_and_reusable stopFailPlatform recordingState
  exact ⟨h.2.2.2.2.1, h.2.2.2.2.2.2.1 okPlatform okPlatform_good,
    h.2.2.2.2.2.2.2.1 ⟨MediaRecorderState.recording, "audio/webm"⟩ "stop-boom" rfl
      (by decide) rfl,
    h.2.2.2.2.2.2.2.2 rfl rfl⟩

/-- Claim C10: the data handler discards events with no data or empty
data, so every accumulated chunk has nonzero size; every operation
preserves that invariant, on every platform and every state satisfying
it (fresh, inactive-handle and throwing-encoder-stop cases included);
and a successful stop of an active encoder returns the blob
concatenating exactly the accumulated chunks in arrival order (typed
with the session mime type). -/
theorem claim_chunk_invariant_and_concat (p : Platform) (s : SessionRecorder)
    (ev : Option Blob) (hs : chunksSized s) :
    chunksSized (SessionRecorder.handleDataAvailable s ev) ∧
    chunksSized (SessionRecorder.start p s).state ∧
    chunksSized (SessionRecorder.stop p s).state ∧
    chunksSized (SessionRecorder.cancel p s).1 ∧
    (∀ r, s.recorder = some r → r.state ≠ MediaRecorderState.inactive →
      p.recorderStop = .ok () →
      (SessionRecorder.stop p s).result =
        .ok ⟨⟨(s.chunks.map Blob.data).flatten, s.mimeType⟩, s.mimeType,
          if s.startedAt = 0 then 0 else p.nowStop - s.startedAt⟩) := by
  refine ⟨?_, ?_, ?_, ?_, ?_⟩
  · cases ev with
    | none => exact hs
    | some b =>
      unfold SessionRecorder.handleDataAvailable
      dsimp only
      by_cases hb : b.size ≠ 0
      · rw [if_pos hb]
        intro x hx
        have hx' : x ∈ s.chunks ++ [b] := hx
        rcases List.mem_append.1 hx' with h | h
        · exact hs x h
        · rw [List.mem_singleton.1 h]; exact hb
      · rw [if_neg hb]; exact hs
  · rcases SessionRecorder.start_chunks_cases p s with h | h
    · intro b hb; rw [h] at hb; cases hb
    · rw [h]; exact hs
  · rcases SessionRecorder.stop_chunks_cases p s with h | h
    · intro b hb; rw [h] at hb; cases hb
    · rw [h]; exact hs
  · intro b hb
    have : (SessionRecorder.cancel p s).1.chunks = [] := rfl
    rw [this] at hb; cases hb
  · intro r hr hact hstop
    unfold SessionRecorder.stop
    rw [hr]
    simp [if_neg hact, hstop]

theorem claim_chunk_invariant_and_concat_witness :
    chunksSized
      (SessionRecorder.handleDataAvailable activeChunksState (some ⟨[], "audio/webm"⟩)) ∧
    chunksSized (SessionRecorder.stop stopFailPlatform activeChunksState).state ∧
    chunksSized (SessionRecorder.stop okPlatform inactiveState).state ∧
    chunksSized (SessionRecorder.start okPlatform SessionRecorder.init).state ∧
    (SessionRecorder.stop okPlatform activeChunksState).result =
      .ok ⟨⟨[1, 2, 3], "audio/webm"⟩, "audio/webm", 2500⟩ := by
  have h := claim_chunk_invariant_and_concat okPlatform activeChunksState
    (some ⟨[], "audio/webm"⟩) (by unfold chunksSized; decide)
  have hthrow := claim_chunk_invariant_and_concat stopFailPlatform activeChunksState
    none (by unfold chunksSized; decide)
  have hinact := claim_chunk_invariant_and_concat okPlatform inactiveState
    none (by unfold chunksSized; decide)
  have hfresh := claim_chunk_invariant_and_concat okPlatform SessionRecorder.init
    none (by unfold chunksSized; decide)
  exact ⟨h.1, hthrow.2.2.1, hinact.2.2.1, hfresh.2.1,
    h.2.2.2.2 ⟨MediaRecorderState.recording, "audio/webm"⟩ rfl (by decide) rfl⟩

/-- Claim C1: start probes the candidates in the fixed priority order of
SUPPORTED_MIME_TYPES (Opus-in-WebM, plain WebM, Opus-in-Ogg, plain Ogg);
the first candidate the platform reports supported becomes the session
mime type; when the platform supports none of the four (every probe
false or throwing), the recorder is constructed with the platform
default format and start still succeeds. -/
theorem claim_start_format_negotiation (p : Platform) (s : SessionRecorder)
    (hw : p.hasWindow = true)
    (h2 : p.getUserMedia = .ok ()) (h3 : p.newAudioContext = .ok ())
    (h4 : p.resumeContext = .ok ()) (h5 : p.createDestination = .ok ())
    (h6 : p.createSource = .ok ()) (h7 : p.connectSource = .ok ())
    (h8 : ∀ m, p.newRecorderWithMime m = .ok ())
    (h9 : p.newRecorderDefault = .ok ())
    (h10 : p.recorderStart = .ok ()) (hnr : s.isRecording = false) :
    SUPPORTED_MIME_TYPES =
      ["audio/webm;codecs=opus", "audio/webm", "audio/ogg;codecs=opus", "audio/ogg"] ∧
    (∀ m, SUPPORTED_MIME_TYPES.find? (fun c => SessionRecorder.mimeProbe p c) = some m →
      SessionRecorder.mimeProbe p m = true ∧
      (SessionRecorder.start p s).result = .ok () ∧
      (SessionRecorder.start p s).state.mimeType = m) ∧
    ((∀ c ∈ SUPPORTED_MIME_TYPES, SessionRecorder.mimeProbe p c = false) →
      (SessionRecorder.start p s).result = .ok () ∧
      ∃ h, (SessionRecorder.start p s).state.recorder = some h ∧
        h.mimeType = p.defaultRecorderMime) := by
  refine ⟨rfl, ?_, ?_⟩
  · intro m hm
    have hmem : m ∈ SUPPORTED_MIME_TYPES := List.mem_of_find?_eq_some hm
    have hprobe : SessionRecorder.mimeProbe p m = true := by
      simpa using List.find?_some hm
    have hne : m ≠ "" := by
      simp only [SUPPORTED_MIME_TYPES, List.mem_cons, List.not_mem_nil,
        or_false] at hmem
      rcases hmem with rfl | rfl | rfl | rfl <;> decide
    refine ⟨hprobe, ?_, ?_⟩ <;>
    · unfold SessionRecorder.start
      simp only [hw, hnr, h2, h3, h4, h5, h6, h7, hm, h8, Bool.false_eq_true,
        if_false, if_true]
      simp [SessionRecorder.startWithRecorder, h10, jsOrString, hne]
  · intro hall
    have hf : SUPPORTED_MIME_TYPES.find? (fun c => SessionRecorder.mimeProbe p c) = none := by
      rw [List.find?_eq_none]
      intro x hx
      simp [hall x hx]
    constructor <;>
    · unfold SessionRecorder.start
      simp only [hw, hnr, h2, h3, h4, h5, h6, h7, hf, h9, Bool.false_eq_true,
        if_false, if_true]
      simp [SessionRecorder.startWithRecorder, h10]

theorem claim_start_format_negotiation_witness :
    (SessionRecorder.start probeOggPlatform SessionRecorder.init).result = .ok () ∧
    (SessionRecorder.start probeOggPlatform SessionRecorder.init).state.mimeType =
      "audio/ogg;codecs=opus" ∧
    (SessionRecorder.start noSupportPlatform SessionRecorder.init).result = .ok () ∧
    ∃ h, (SessionRecorder.start noSupportPlatform SessionRecorder.init).state.recorder =
      some h ∧ h.mimeType = "audio/mp4" := by
  have hogg := claim_start_format_negotiation probeOggPlatform SessionRecorder.init
    rfl rfl rfl rfl rfl rfl rfl (fun _ => rfl) rfl rfl rfl
  have hnone := claim_start_format_negotiation noSupportPlatform SessionRecorder.init
    rfl rfl rfl rfl rfl rfl rfl (fun _ => rfl) rfl rfl rfl
  have h1 := hogg.2.1 "audio/ogg;codecs=opus" (by decide)
  have h2 := hnone.2.2 (fun c _ => rfl)
  exact ⟨h1.2.1, h1.2.2, h2.1, h2.2⟩

/-- Claim C8 counterexample: on a platform whose resolved module lacks
the required function, calibrateRMS does not fail with a descriptive
error; it resolves to 0 (the source falls back instead of throwing). -/
theorem claim_bridge_counterexample :
    AudioBridge.calibrateRMS stubModulePlatform 2 = Except.ok 0 := rfl

/-- Claim C8, amended: each entry point fails with the descriptive
module-unavailable error when no candidate location resolves; when the
resolved module lacks the required function, recordUntilSilence fails
with a descriptive error, while calibrateRMS resolves to 0 and
blobToBase64 resolves to the empty string instead of failing. -/
theorem claim_bridge_error_behavior (p q : BridgePlatform) (m : AudioModule)
    (n : Nat) (args : String) (b : Blob)
    (hp : ∀ c, p.importModule c = none)
    (hq : AudioBridge.getModule q = .ok m)
    (h1 : m.calibrateRMS = none) (h2 : m.recordUntilSilence = none)
    (h3 : m.blobToBase64 = none) :
    AudioBridge.calibrateRMS p n = .error AudioBridge.audioUnavailableMessage ∧
    AudioBridge.recordUntilSilence p args = .error AudioBridge.audioUnavailableMessage ∧
    AudioBridge.blobToBase64 p b = .error AudioBridge.audioUnavailableMessage ∧
    AudioBridge.calibrateRMS q n = .ok 0 ∧
    AudioBridge.recordUntilSilence q args = .error "Audio recording unavailable" ∧
    AudioBridge.blobToBase64 q b = .ok "" := by
  have hgm : AudioBridge.getModule p = .error AudioBridge.audioUnavailableMessage := by
    simp [AudioBridge.getModule, AudioBridge.moduleCandidates, AudioBridge.tryImports, hp]
  refine ⟨?_, ?_, ?_, ?_, ?_, ?_⟩ <;>
    simp [AudioBridge.calibrateRMS, AudioBridge.recordUntilSilence,
      AudioBridge.blobToBase64, hgm, hq, h1, h2, h3]

theorem claim_bridge_error_behavior_witness :
    AudioBridge.calibrateRMS noModulePlatform 2 =
      .error AudioBridge.audioUnavailableMessage ∧
    AudioBridge.blobToBase64 noModulePlatform ⟨[], ""⟩ =
      .error AudioBridge.audioUnavailableMessage ∧
    AudioBridge.recordUntilSilence stubModulePlatform "opts" =
      .error "Audio recording unavailable" ∧
    AudioBridge.blobToBase64 stubModulePlatform ⟨[], ""⟩ = .ok "" := by
  have h := claim_bridge_error_behavior noModulePlatform stubModulePlatform
    emptyAudioModule 2 "opts" ⟨[], ""⟩ (fun _ => rfl) rfl rfl rfl rfl
  exact ⟨h.1, h.2.2.1, h.2.2.2.2.1, h.2.2.2.2.2⟩

/-- Characterization used by claim C9: the list of trimmed-and-lowered
values requireEnv rejects as placeholders. -/
theorem requireEnv_length_zero_iff (v : String) : v.length = 0 ↔ v = "" := by
  constructor
  · intro h
    cases v with
    | mk data =>
      cases data with
      | nil => rfl
      | cons a l => simp [String.length] at h
  · intro h; subst h; rfl

/-- Claim C9: requireEnv throws exactly when the variable is unset, when
its trimmed value is empty, or when its trimmed value lowercased equals
one of the placeholder values; otherwise it returns the trimmed value. -/
theorem claim_requireEnv_spec (env : String → Option String) (name : String) :
    (env name = none →
      CreatePr.requireEnv env name =
        .error ("Missing required environment variable: " ++ name)) ∧
    (∀ raw, env name = some raw → jsTrim raw = "" →
      CreatePr.requireEnv env name =
        .error ("Environment variable " ++ name ++ " is empty")) ∧
    (∀ raw, env name = some raw → jsTrim raw ≠ "" →
      jsToLower (jsTrim raw) ∈ CreatePr.placeholderValues →
      CreatePr.requireEnv env name =
        .error ("Environment variable " ++ name ++
          " is using a placeholder value: " ++ jsTrim raw)) ∧
    (∀ raw, env name = some raw → jsTrim raw ≠ "" →
      jsToLower (jsTrim raw) ∉ CreatePr.placeholderValues →
      CreatePr.requireEnv env name = .ok (jsTrim raw)) := by
  refine ⟨?_, ?_, ?_, ?_⟩
  · intro h
    simp [CreatePr.requireEnv, h]
  · intro raw hr ht
    simp [CreatePr.requireEnv, hr, ht]
  · intro raw hr ht hpl
    have hlen : ¬ (jsTrim raw).length = 0 := by
      rw [requireEnv_length_zero_iff]; exact ht
    simp [CreatePr.requireEnv, hr, hlen, hpl]
  · intro raw hr ht hpl
    have hlen : ¬ (jsTrim raw).length = 0 := by
      rw [requireEnv_length_zero_iff]; exact ht
    simp [CreatePr.requireEnv, hr, hlen, hpl]

theorem claim_requireEnv_spec_witness :
    CreatePr.requireEnv (fun _ => some "  Ready ") "PR_TITLE" = .ok "Ready" ∧
    CreatePr.requireEnv (fun _ => some "ChangeMe") "GITHUB_TOKEN" =
      .error "Environment variable GITHUB_TOKEN is using a placeholder value: ChangeMe" ∧
    CreatePr.requireEnv (fun _ => none) "PR_BASE" =
      .error "Missing required environment variable: PR_BASE" := by
  have hok := (claim_requireEnv_spec (fun _ => some "  Ready ") "PR_TITLE").2.2.2
    "  Ready " rfl (by decide) (by decide)
  have hpl := (claim_requireEnv_spec (fun _ => some "ChangeMe") "GITHUB_TOKEN").2.2.1
    "ChangeMe" rfl (by decide) (by decide)
  have hmiss := (claim_requireEnv_spec (fun _ => none) "PR_BASE").1 rfl
  exact ⟨hok, hpl, hmiss⟩
